/-
Verification of the document-validation engine
(`app/services/validator.py`, `app/models/document.py`).

The engine is pure except for draws from Python's global `random` module.
We embed it shallowly: the pseudo-random source is an explicit entropy
stream `s : Nat → Nat`, consumed left to right in the order the Python
expressions evaluate (keyword arguments of a call evaluate left to right,
list elements in order, so each `ValidationCheck(...)` draws first for
`passed`, then for `details`).  Each `random` primitive interprets one
raw draw:

  * `random.choice([True, False])`      → `choice2` (index `n % 2`)
  * `random.choice([True, True, False])`→ `choice3` (index `n % 3`)
  * `random.random()`                   → `ratOf` (uniform grain 1/1000;
    the code only compares the float against 0.3 or 0.2, both exactly
    representable at this grain, so the comparison outcomes are faithful)
  * `random.randint(-10, 10)`           → `randint_m10_10` (uniform on
    the 21 values −10..10)

`datetime` values are opaque to the engine; we model them as `Nat`.
-/
import Mathlib

set_option autoImplicit false

/-! ## Randomness model -/

/-- `random.choice([True, False])` applied to one raw draw. -/
def choice2 (n : Nat) : Bool :=
  [true, false].getD (n % 2) true

/-- `random.choice([True, True, False])` applied to one raw draw. -/
def choice3 (n : Nat) : Bool :=
  [true, true, false].getD (n % 3) true

/-- `random.random()` applied to one raw draw: a rational in `[0, 1)`
at grain `1/1000`. -/
def ratOf (n : Nat) : ℚ :=
  ((n % 1000 : Nat) : ℚ) / 1000

/-- `random.randint(-10, 10)` applied to one raw draw. -/
def randint_m10_10 (n : Nat) : Int :=
  (n % 21 : Int) - 10

/-! ## Data model (`app/models/document.py`) -/

/- `DocumentType(str, Enum)`: the enum members are strings; the engine
dispatches on string equality, so we carry the underlying string. -/
namespace DocumentType

def BANK_STATEMENT : String := "bank_statement"

def PAYSLIP : String := "payslip"

def IRP : String := "irp"

def PPSN : String := "ppsn"

def TAX_RECORD : String := "tax_record"

end DocumentType

/-- `Document`: a document uploaded for validation. -/
structure Document where
  file_path : String
  document_type : String
  customer_name : String
  customer_id : String
  upload_date : Nat
  metadata : List (String × String) := []
deriving DecidableEq, Repr

/-- `ValidationCheck`: a single validation check performed on a document. -/
structure ValidationCheck where
  check_type : String
  passed : Bool
  details : String
deriving DecidableEq, Repr

/-- The single evaluation of `datetime.now()` that happens when the
`ValidationResult` class body executes: the default value of
`validation_date` is computed once, at class-definition time, and shared
by every instance that does not set the field explicitly. -/
def classDefTime : Nat := 0

/-- `ValidationResult`: the result of validating a document. -/
structure ValidationResult where
  document : Document
  is_valid : Bool
  risk_score : Int
  checks : List ValidationCheck
  anomalies : List String := []
  recommendations : List String := []
  validation_date : Nat := classDefTime
deriving DecidableEq, Repr

/-! ## The validator (`app/services/validator.py`)

Each `_validate_*` method below takes the entropy stream `s` and reads
its draws at fixed positions, matching Python's left-to-right evaluation
order.  The `for`-loops appending anomaly strings per failing check are
rendered as `List.filterMap` of the per-check message function (one fixed
message appended per failing check whose `check_type` is mapped, in check
order — the same sequence the loop builds). -/

/-- The anomaly message of the `_validate_bank_statement` loop for one
check: `some` message for a failing mapped check, `none` otherwise. -/
def bankAnomaly (check : ValidationCheck) : Option String :=
  if !check.passed then
    if check.check_type == "Balance Calculation" then
      some "Balance discrepancy: Opening balance + transactions does not equal closing balance"
    else if check.check_type == "Transaction Pattern Analysis" then
      some "Unusual pattern: Multiple large round-sum deposits detected"
    else none
  else none

/-- The `checks` list built by `_validate_bank_statement` from the entropy
stream (draw order: `passed` of check 4, its `details`, `passed` of check 5,
its `details`). -/
def bankChecks (s : Nat → Nat) : List ValidationCheck := [
    { check_type := "Template Verification",
      passed := true,
      details := "Document matches known bank statement template" },
    { check_type := "Logo Verification",
      passed := true,
      details := "Bank logo position and appearance verified" },
    { check_type := "Account Number Format",
      passed := true,
      details := "IBAN format is valid" },
    { check_type := "Balance Calculation",
      passed := choice2 (s 0),
      details := if ratOf (s 1) > 3/10 then
          "Opening balance + transactions = closing balance"
        else "Discrepancy detected in balance calculation" },
    { check_type := "Transaction Pattern Analysis",
      passed := choice2 (s 2),
      details := if ratOf (s 3) > 3/10 then
          "Transaction patterns appear normal"
        else "Unusual transaction patterns detected" }]

/-- Mock validation for bank statements (`_validate_bank_statement`). -/
def _validate_bank_statement (document : Document) (s : Nat → Nat) : ValidationResult :=
  let checks : List ValidationCheck := bankChecks s
  let is_valid := checks.all (fun check => check.passed)
  let risk_score : Int :=
    checks.foldl (fun r check => if check.passed then r else r + 20) 10
  let risk_score : Int := risk_score + randint_m10_10 (s 4)
  let risk_score : Int := max 0 (min 100 risk_score)
  let anomalies : List String := checks.filterMap bankAnomaly
  let recommendations : List String :=
    if is_valid then
      ["Document appears valid - proceed with standard processing"]
    else
      ["Request additional verification from customer"] ++
      (if checks.any (fun c => c.check_type == "Balance Calculation" && !c.passed) then
        ["Verify transaction history with issuing bank"]
      else [])
  { document := document,
    is_valid := is_valid,
    risk_score := risk_score,
    checks := checks,
    anomalies := anomalies,
    recommendations := recommendations }

/-- The anomaly message of the `_validate_payslip` loop for one check. -/
def payslipAnomaly (check : ValidationCheck) : Option String :=
  if !check.passed then
    if check.check_type == "Employer Verification" then
      some "Employer not found in registered business database"
    else if check.check_type == "Tax Calculation" then
      some "Tax calculation does not match standard rates for income level"
    else if check.check_type == "Salary Consistency" then
      some "Gross salary does not match sum of net pay and deductions"
    else none
  else none

/-- The `checks` list built by `_validate_payslip` from the entropy stream. -/
def payslipChecks (s : Nat → Nat) : List ValidationCheck := [
    { check_type := "Employer Verification",
      passed := choice3 (s 0),
      details := if ratOf (s 1) > 2/10 then
          "Employer details match registered business"
        else "Employer details could not be verified" },
    { check_type := "Tax Calculation",
      passed := choice3 (s 2),
      details := if ratOf (s 3) > 2/10 then
          "Tax calculations are correct"
        else "Discrepancies found in tax calculations" },
    { check_type := "Salary Consistency",
      passed := choice3 (s 4),
      details := if ratOf (s 5) > 2/10 then
          "Salary figures are consistent throughout document"
        else "Inconsistent salary figures detected" },
    { check_type := "Document Format",
      passed := true,
      details := "Document format matches standard payslip format" }]

/-- Mock validation for payslips (`_validate_payslip`). -/
def _validate_payslip (document : Document) (s : Nat → Nat) : ValidationResult :=
  let checks : List ValidationCheck := payslipChecks s
  let is_valid := checks.all (fun check => check.passed)
  let risk_score : Int :=
    checks.foldl (fun r check => if check.passed then r else r + 25) 15
  let risk_score : Int := risk_score + randint_m10_10 (s 6)
  let risk_score : Int := max 0 (min 100 risk_score)
  let anomalies : List String := checks.filterMap payslipAnomaly
  let recommendations : List String :=
    if is_valid then
      ["Payslip appears valid - proceed with standard processing"]
    else
      ["Request additional verification from customer"] ++
      (if checks.any (fun c => c.check_type == "Employer Verification" && !c.passed) then
        ["Verify employer existence through Companies Registration Office"]
      else [])
  { document := document,
    is_valid := is_valid,
    risk_score := risk_score,
    checks := checks,
    anomalies := anomalies,
    recommendations := recommendations }

/-- The anomaly message of the `_validate_irp` loop for one check. -/
def irpAnomaly (check : ValidationCheck) : Option String :=
  if !check.passed then
    if check.check_type == "Security Features" then
      some "Missing or altered security features detected"
    else if check.check_type == "Expiration Date" then
      some "Document appears to be expired or date has been altered"
    else none
  else none

/-- The `checks` list built by `_validate_irp` from the entropy stream. -/
def irpChecks (s : Nat → Nat) : List ValidationCheck := [
    { check_type := "Document Format",
      passed := true,
      details := "Document format matches official IRP card format" },
    { check_type := "Security Features",
      passed := choice3 (s 0),
      details := if ratOf (s 1) > 2/10 then
          "Security features present and valid"
        else "One or more security features could not be verified" },
    { check_type := "Expiration Date",
      passed := choice3 (s 2),
      details := if ratOf (s 3) > 2/10 then
          "IRP is current and not expired"
        else "IRP appears to be expired" },
    { check_type := "GNIB Number Format",
      passed := true,
      details := "GNIB number format is valid" }]

/-- Mock validation for Irish Residency Permits (`_validate_irp`). -/
def _validate_irp (document : Document) (s : Nat → Nat) : ValidationResult :=
  let checks : List ValidationCheck := irpChecks s
  let is_valid := checks.all (fun check => check.passed)
  let risk_score : Int :=
    checks.foldl (fun r check => if check.passed then r else r + 25) 20
  let risk_score : Int := risk_score + randint_m10_10 (s 4)
  let risk_score : Int := max 0 (min 100 risk_score)
  let anomalies : List String := checks.filterMap irpAnomaly
  let recommendations : List String :=
    if is_valid then
      ["IRP appears valid - proceed with standard processing"]
    else
      ["Request physical verification of original document"] ++
      (if checks.any (fun c => c.check_type == "Security Features" && !c.passed) then
        ["Escalate to fraud department for detailed investigation"]
      else [])
  { document := document,
    is_valid := is_valid,
    risk_score := risk_score,
    checks := checks,
    anomalies := anomalies,
    recommendations := recommendations }

/-- The anomaly message of the `_validate_ppsn` loop for one check. -/
def ppsnAnomaly (check : ValidationCheck) : Option String :=
  if !check.passed then
    if check.check_type == "Name Matching" then
      some "Name on PPSN document does not match name on application"
    else if check.check_type == "DOB Consistency" then
      some "Date of birth on PPSN document does not match other provided documents"
    else none
  else none

/-- The `checks` list built by `_validate_ppsn` from the entropy stream. -/
def ppsnChecks (s : Nat → Nat) : List ValidationCheck := [
    { check_type := "PPSN Format",
      passed := true,
      details := "PPSN format is valid (7 digits + 1-2 letters)" },
    { check_type := "Document Format",
      passed := true,
      details := "Document format matches official PPSN documentation" },
    { check_type := "Name Matching",
      passed := choice3 (s 0),
      details := if ratOf (s 1) > 2/10 then
          "Name on document matches application name"
        else "Name discrepancy detected" },
    { check_type := "DOB Consistency",
      passed := choice3 (s 2),
      details := if ratOf (s 3) > 2/10 then
          "Date of birth is consistent with other documents"
        else "Date of birth discrepancy detected" }]

/-- Mock validation for PPSN documents (`_validate_ppsn`). -/
def _validate_ppsn (document : Document) (s : Nat → Nat) : ValidationResult :=
  let checks : List ValidationCheck := ppsnChecks s
  let is_valid := checks.all (fun check => check.passed)
  let risk_score : Int :=
    checks.foldl (fun r check => if check.passed then r else r + 25) 15
  let risk_score : Int := risk_score + randint_m10_10 (s 4)
  let risk_score : Int := max 0 (min 100 risk_score)
  let anomalies : List String := checks.filterMap ppsnAnomaly
  let recommendations : List String :=
    if is_valid then
      ["PPSN document appears valid - proceed with standard processing"]
    else
      ["Request additional identification documents"] ++
      (if checks.any (fun c => c.check_type == "Name Matching" && !c.passed) then
        ["Verify name change documentation if applicable"]
      else [])
  { document := document,
    is_valid := is_valid,
    risk_score := risk_score,
    checks := checks,
    anomalies := anomalies,
    recommendations := recommendations }

/-- The anomaly message of the `_validate_tax_record` loop for one check. -/
def taxAnomaly (check : ValidationCheck) : Option String :=
  if !check.passed then
    if check.check_type == "Income Consistency" then
      some "Reported income does not match income on other documents"
    else if check.check_type == "Tax Calculation" then
      some "Tax amounts do not align with standard calculation for reported income"
    else if check.check_type == "Official Stamps/Watermarks" then
      some "Document lacks proper official authentication markers"
    else none
  else none

/-- The `checks` list built by `_validate_tax_record` from the entropy stream. -/
def taxChecks (s : Nat → Nat) : List ValidationCheck := [
    { check_type := "Document Format",
      passed := true,
      details := "Document format matches official tax record format" },
    { check_type := "Tax Year Verification",
      passed := true,
      details := "Tax year is current or recent" },
    { check_type := "Income Consistency",
      passed := choice3 (s 0),
      details := if ratOf (s 1) > 2/10 then
          "Income figures are consistent with other documents"
        else "Income discrepancies detected" },
    { check_type := "Tax Calculation",
      passed := choice3 (s 2),
      details := if ratOf (s 3) > 2/10 then
          "Tax calculations appear correct"
        else "Tax calculation anomalies detected" },
    { check_type := "Official Stamps/Watermarks",
      passed := choice3 (s 4),
      details := if ratOf (s 5) > 2/10 then
          "Official stamps/watermarks verified"
        else "Official stamps/watermarks could not be verified" }]

/-- Mock validation for tax records (`_validate_tax_record`). -/
def _validate_tax_record (document : Document) (s : Nat → Nat) : ValidationResult :=
  let checks : List ValidationCheck := taxChecks s
  let is_valid := checks.all (fun check => check.passed)
  let risk_score : Int :=
    checks.foldl (fun r check => if check.passed then r else r + 20) 25
  let risk_score : Int := risk_score + randint_m10_10 (s 6)
  let risk_score : Int := max 0 (min 100 risk_score)
  let anomalies : List String := checks.filterMap taxAnomaly
  let recommendations : List String :=
    if is_valid then
      ["Tax record appears valid - proceed with standard processing"]
    else
      ["Request additional verification from tax authority"] ++
      (if checks.any (fun c => c.check_type == "Income Consistency" && !c.passed) then
        ["Cross-verify income with payslips and bank statements"]
      else [])
  { document := document,
    is_valid := is_valid,
    risk_score := risk_score,
    checks := checks,
    anomalies := anomalies,
    recommendations := recommendations }

/-- `DocumentValidator.validate_document`: dispatch on the document type,
with a fixed invalid result for unknown types. -/
def validate_document (document : Document) (s : Nat → Nat) : ValidationResult :=
  if document.document_type = DocumentType.BANK_STATEMENT then
    _validate_bank_statement document s
  else if document.document_type = DocumentType.PAYSLIP then
    _validate_payslip document s
  else if document.document_type = DocumentType.IRP then
    _validate_irp document s
  else if document.document_type = DocumentType.PPSN then
    _validate_ppsn document s
  else if document.document_type = DocumentType.TAX_RECORD then
    _validate_tax_record document s
  else
    { document := document,
      is_valid := false,
      risk_score := 100,
      checks := [
        { check_type := "Document Type",
          passed := false,
          details := "Unknown document type" }],
      anomalies := ["Unknown document type"],
      recommendations := ["Please select a valid document type"] }

/-! ## Claim-side tables and predicates

These definitions restate, as data, the per-type constants the spec
quotes (base risk, per-failed-check increment, draw position of the
adjustment, anomaly-mapped check types, deterministic/probabilistic
profile of the `passed` flags); the theorems below relate the engine's
output to them. -/

/-- The document type is one of the five known `DocumentType` members. -/
def KnownType (dt : String) : Prop :=
  dt = DocumentType.BANK_STATEMENT ∨ dt = DocumentType.PAYSLIP ∨ dt = DocumentType.IRP ∨
    dt = DocumentType.PPSN ∨ dt = DocumentType.TAX_RECORD

instance (dt : String) : Decidable (KnownType dt) := by
  unfold KnownType
  infer_instance

/-- The type-specific base risk value. -/
def baseRisk (dt : String) : Int :=
  if dt = DocumentType.BANK_STATEMENT then 10
  else if dt = DocumentType.PAYSLIP then 15
  else if dt = DocumentType.IRP then 20
  else if dt = DocumentType.PPSN then 15
  else 25

/-- The type-specific risk increment per failed check. -/
def failIncrement (dt : String) : Int :=
  if dt = DocumentType.BANK_STATEMENT ∨ dt = DocumentType.TAX_RECORD then 20 else 25

/-- The position in the entropy stream of the `random.randint(-10, 10)`
adjustment draw for each known type (after 2 or 3 probabilistic checks,
each consuming two draws). -/
def adjDrawIx (dt : String) : Nat :=
  if dt = DocumentType.PAYSLIP ∨ dt = DocumentType.TAX_RECORD then 6 else 4

/-- Whether a failing check of the given `check_type` produces an anomaly
message in the given document type's anomaly loop. -/
def anomalyMapped (dt ct : String) : Bool :=
  if dt = DocumentType.BANK_STATEMENT then
    ct == "Balance Calculation" || ct == "Transaction Pattern Analysis"
  else if dt = DocumentType.PAYSLIP then
    ct == "Employer Verification" || ct == "Tax Calculation" || ct == "Salary Consistency"
  else if dt = DocumentType.IRP then
    ct == "Security Features" || ct == "Expiration Date"
  else if dt = DocumentType.PPSN then
    ct == "Name Matching" || ct == "DOB Consistency"
  else if dt = DocumentType.TAX_RECORD then
    ct == "Income Consistency" || ct == "Tax Calculation" || ct == "Official Stamps/Watermarks"
  else false

/-- The `passed` flags of each known type's checks as drawn from the
entropy stream: which checks are deterministically `true` and which are
`random.choice` draws. -/
def passProfile (dt : String) (s : Nat → Nat) : List Bool :=
  if dt = DocumentType.BANK_STATEMENT then
    [true, true, true, choice2 (s 0), choice2 (s 2)]
  else if dt = DocumentType.PAYSLIP then
    [choice3 (s 0), choice3 (s 2), choice3 (s 4), true]
  else if dt = DocumentType.IRP then
    [true, choice3 (s 0), choice3 (s 2), true]
  else if dt = DocumentType.PPSN then
    [true, true, choice3 (s 0), choice3 (s 2)]
  else
    [true, true, choice3 (s 0), choice3 (s 2), choice3 (s 4)]

/-- The probability that `random.choice([True, False])` returns `True`:
the fraction of raw draws (uniform over one period of the draw
interpretation) on which `choice2` holds. -/
def choice2PassProb : ℚ :=
  (((List.range 2).filter (fun n => choice2 n)).length : ℚ) / 2

/-- The probability that `random.choice([True, True, False])` returns
`True`: the fraction of raw draws on which `choice3` holds. -/
def choice3PassProb : ℚ :=
  (((List.range 3).filter (fun n => choice3 n)).length : ℚ) / 3

/-! ## Concrete documents and entropy streams used as test inputs -/

/-- A concrete bank-statement document. -/
def bankDoc : Document :=
  { file_path := "statement.pdf", document_type := DocumentType.BANK_STATEMENT,
    customer_name := "Jane Murphy", customer_id := "cust-001", upload_date := 1 }

/-- A concrete document whose type is none of the five known types. -/
def passportDoc : Document :=
  { file_path := "passport.pdf", document_type := "passport",
    customer_name := "Jane Murphy", customer_id := "cust-002", upload_date := 2 }

/-- The all-zero entropy stream: every `choice` picks the first element,
every `random.random()` is `0`, every `randint` is `-10`. -/
def allZero : Nat → Nat := fun _ => 0

/-- The all-one entropy stream: `choice2` yields `false`,
`choice3` yields `true`. -/
def allOne : Nat → Nat := fun _ => 1

/-- A stream whose first draw is `1` (so `choice2` yields `false`) and
whose later draws are `999` (so `random.random()` is `0.999`). -/
def failThenHigh : Nat → Nat := fun i => if i = 0 then 1 else 999

/-- A stream agreeing with `idBelow7` on the first seven draws. -/
def idBelow7 : Nat → Nat := fun i => if i < 7 then i else 3

/-- A second stream agreeing with `idBelow7` on the first seven draws but
differing beyond them. -/
def idBelow7b : Nat → Nat := fun i => if i < 7 then i else 8

/-- A fallback `ValidationCheck` used as the default of `List.getD`. -/
def fallbackCheck : ValidationCheck :=
  { check_type := "", passed := true, details := "" }

/-! ## Helper lemmas -/

lemma randint_m10_10_bounds (n : Nat) :
    -10 ≤ randint_m10_10 n ∧ randint_m10_10 n ≤ 10 := by
  unfold randint_m10_10
  have h : n % 21 < 21 := Nat.mod_lt n (by norm_num)
  omega

lemma foldl_risk (inc base : Int) (l : List ValidationCheck) :
    l.foldl (fun r check => if check.passed then r else r + inc) base
      = base + inc * ((l.filter (fun check => !check.passed)).length : Int) := by
  induction l generalizing base with
  | nil => simp
  | cons c t ih =>
    cases hc : c.passed
    · simp only [List.foldl_cons, hc, if_neg Bool.false_ne_true, List.filter_cons,
        Bool.not_false, if_pos trivial, ih, List.length_cons]
      push_cast
      ring
    · simp only [List.foldl_cons, hc, if_pos trivial, List.filter_cons, Bool.not_true, ih]
      simp

/-! ## Projection and dispatch lemmas for each validator branch -/

lemma bank_checks_def (document : Document) (s : Nat → Nat) :
    (_validate_bank_statement document s).checks = bankChecks s := rfl

lemma bank_is_valid_def (document : Document) (s : Nat → Nat) :
    (_validate_bank_statement document s).is_valid
      = (bankChecks s).all (fun check => check.passed) := rfl

lemma bank_risk_def (document : Document) (s : Nat → Nat) :
    (_validate_bank_statement document s).risk_score
      = max 0 (min 100 ((bankChecks s).foldl
          (fun r check => if check.passed then r else r + 20) 10 + randint_m10_10 (s 4))) := rfl

lemma bank_anomalies_def (document : Document) (s : Nat → Nat) :
    (_validate_bank_statement document s).anomalies
      = (bankChecks s).filterMap bankAnomaly := rfl

lemma bank_recs_def (document : Document) (s : Nat → Nat) :
    (_validate_bank_statement document s).recommendations
      = if (bankChecks s).all (fun check => check.passed) then
          ["Document appears valid - proceed with standard processing"]
        else
          ["Request additional verification from customer"] ++
          (if (bankChecks s).any (fun c => c.check_type == "Balance Calculation" && !c.passed) then
            ["Verify transaction history with issuing bank"]
          else []) := rfl

lemma payslip_checks_def (document : Document) (s : Nat → Nat) :
    (_validate_payslip document s).checks = payslipChecks s := rfl

lemma payslip_is_valid_def (document : Document) (s : Nat → Nat) :
    (_validate_payslip document s).is_valid
      = (payslipChecks s).all (fun check => check.passed) := rfl

lemma payslip_risk_def (document : Document) (s : Nat → Nat) :
    (_validate_payslip document s).risk_score
      = max 0 (min 100 ((payslipChecks s).foldl
          (fun r check => if check.passed then r else r + 25) 15 + randint_m10_10 (s 6))) := rfl

lemma payslip_anomalies_def (document : Document) (s : Nat → Nat) :
    (_validate_payslip document s).anomalies
      = (payslipChecks s).filterMap payslipAnomaly := rfl

lemma payslip_recs_def (document : Document) (s : Nat → Nat) :
    (_validate_payslip document s).recommendations
      = if (payslipChecks s).all (fun check => check.passed) then
          ["Payslip appears valid - proceed with standard processing"]
        else
          ["Request additional verification from customer"] ++
          (if (payslipChecks s).any (fun c => c.check_type == "Employer Verification" && !c.passed) then
            ["Verify employer existence through Companies Registration Office"]
          else []) := rfl

lemma irp_checks_def (document : Document) (s : Nat → Nat) :
    (_validate_irp document s).checks = irpChecks s := rfl

lemma irp_is_valid_def (document : Document) (s : Nat → Nat) :
    (_validate_irp document s).is_valid
      = (irpChecks s).all (fun check => check.passed) := rfl

lemma irp_risk_def (document : Document) (s : Nat → Nat) :
    (_validate_irp document s).risk_score
      = max 0 (min 100 ((irpChecks s).foldl
          (fun r check => if check.passed then r else r + 25) 20 + randint_m10_10 (s 4))) := rfl

lemma irp_anomalies_def (document : Document) (s : Nat → Nat) :
    (_validate_irp document s).anomalies
      = (irpChecks s).filterMap irpAnomaly := rfl

lemma irp_recs_def (document : Document) (s : Nat → Nat) :
    (_validate_irp document s).recommendations
      = if (irpChecks s).all (fun check => check.passed) then
          ["IRP appears valid - proceed with standard processing"]
        else
          ["Request physical verification of original document"] ++
          (if (irpChecks s).any (fun c => c.check_type == "Security Features" && !c.passed) then
            ["Escalate to fraud department for detailed investigation"]
          else []) := rfl

lemma ppsn_checks_def (document : Document) (s : Nat → Nat) :
    (_validate_ppsn document s).checks = ppsnChecks s := rfl

lemma ppsn_is_valid_def (document : Document) (s : Nat → Nat) :
    (_validate_ppsn document s).is_valid
      = (ppsnChecks s).all (fun check => check.passed) := rfl

lemma ppsn_risk_def (document : Document) (s : Nat → Nat) :
    (_validate_ppsn document s).risk_score
      = max 0 (min 100 ((ppsnChecks s).foldl
          (fun r check => if check.passed then r else r + 25) 15 + randint_m10_10 (s 4))) := rfl

lemma ppsn_anomalies_def (document : Document) (s : Nat → Nat) :
    (_validate_ppsn document s).anomalies
      = (ppsnChecks s).filterMap ppsnAnomaly := rfl

lemma ppsn_recs_def (document : Document) (s : Nat → Nat) :
    (_validate_ppsn document s).recommendations
      = if (ppsnChecks s).all (fun check => check.passed) then
          ["PPSN document appears valid - proceed with standard processing"]
        else
          ["Request additional identification documents"] ++
          (if (ppsnChecks s).any (fun c => c.check_type == "Name Matching" && !c.passed) then
            ["Verify name change documentation if applicable"]
          else []) := rfl

lemma tax_checks_def (document : Document) (s : Nat → Nat) :
    (_validate_tax_record document s).checks = taxChecks s := rfl

lemma tax_is_valid_def (document : Document) (s : Nat → Nat) :
    (_validate_tax_record document s).is_valid
      = (taxChecks s).all (fun check => check.passed) := rfl

lemma tax_risk_def (document : Document) (s : Nat → Nat) :
    (_validate_tax_record document s).risk_score
      = max 0 (min 100 ((taxChecks s).foldl
          (fun r check => if check.passed then r else r + 20) 25 + randint_m10_10 (s 6))) := rfl

lemma tax_anomalies_def (document : Document) (s : Nat → Nat) :
    (_validate_tax_record document s).anomalies
      = (taxChecks s).filterMap taxAnomaly := rfl

lemma tax_recs_def (document : Document) (s : Nat → Nat) :
    (_validate_tax_record document s).recommendations
      = if (taxChecks s).all (fun check => check.passed) then
          ["Tax record appears valid - proceed with standard processing"]
        else
          ["Request additional verification from tax authority"] ++
          (if (taxChecks s).any (fun c => c.check_type == "Income Consistency" && !c.passed) then
            ["Cross-verify income with payslips and bank statements"]
          else []) := rfl

lemma dispatch_bank (document : Document) (s : Nat → Nat)
    (h : document.document_type = DocumentType.BANK_STATEMENT) :
    validate_document document s = _validate_bank_statement document s := by
  simp [validate_document, h]

lemma dispatch_payslip (document : Document) (s : Nat → Nat)
    (h : document.document_type = DocumentType.PAYSLIP) :
    validate_document document s = _validate_payslip document s := by
  simp [validate_document, h, DocumentType.BANK_STATEMENT, DocumentType.PAYSLIP]

lemma dispatch_irp (document : Document) (s : Nat → Nat)
    (h : document.document_type = DocumentType.IRP) :
    validate_document document s = _validate_irp document s := by
  simp [validate_document, h, DocumentType.BANK_STATEMENT, DocumentType.PAYSLIP,
    DocumentType.IRP]

lemma dispatch_ppsn (document : Document) (s : Nat → Nat)
    (h : document.document_type = DocumentType.PPSN) :
    validate_document document s = _validate_ppsn document s := by
  simp [validate_document, h, DocumentType.BANK_STATEMENT, DocumentType.PAYSLIP,
    DocumentType.IRP, DocumentType.PPSN]

lemma dispatch_tax (document : Document) (s : Nat → Nat)
    (h : document.document_type = DocumentType.TAX_RECORD) :
    validate_document document s = _validate_tax_record document s := by
  simp [validate_document, h, DocumentType.BANK_STATEMENT, DocumentType.PAYSLIP,
    DocumentType.IRP, DocumentType.PPSN, DocumentType.TAX_RECORD]

/-! ## Claim theorems -/

/-- C1: for every document (each of the five known document types and the
unknown-type case alike) and every sequence of random draws, the returned
`is_valid` equals the logical AND of the `passed` flags of all checks in
the returned `checks` list. -/
theorem is_valid_eq_all_checks_passed (doc : Document) (s : Nat → Nat) :
    (validate_document doc s).is_valid
      = (validate_document doc s).checks.all (fun check => check.passed) := by
  unfold validate_document
  repeat first
    | rfl
    | split

/-- C2: for every document and every sequence of random draws, the
returned `risk_score` lies in the inclusive range `[0, 100]`. -/
theorem risk_score_in_range (doc : Document) (s : Nat → Nat) :
    0 ≤ (validate_document doc s).risk_score ∧
      (validate_document doc s).risk_score ≤ 100 := by
  have clamp : ∀ x : Int, 0 ≤ max 0 (min 100 x) ∧ max 0 (min 100 x) ≤ 100 :=
    fun x => by omega
  unfold validate_document
  repeat first
    | exact clamp _
    | exact show (0:Int) ≤ 100 ∧ (100:Int) ≤ 100 by omega
    | split

/-- C3: for every document whose type is not one of the five known types,
`validate_document` returns the fixed result: invalid, risk 100, a single
failing "Document Type" check, one anomaly and one recommendation. -/
theorem unknown_type_fixed_result (doc : Document) (s : Nat → Nat)
    (h : ¬ KnownType doc.document_type) :
    (validate_document doc s).is_valid = false ∧
    (validate_document doc s).risk_score = 100 ∧
    (validate_document doc s).checks
      = [{ check_type := "Document Type", passed := false,
           details := "Unknown document type" }] ∧
    (validate_document doc s).anomalies.length = 1 ∧
    (validate_document doc s).recommendations.length = 1 := by
  unfold KnownType at h
  push_neg at h
  obtain ⟨h1, h2, h3, h4, h5⟩ := h
  simp [validate_document, h1, h2, h3, h4, h5]

/-- Witness for C3 at a concrete unknown-type document and stream. -/
theorem unknown_type_fixed_result_witness :
    ¬ KnownType passportDoc.document_type ∧
    ((validate_document passportDoc allZero).is_valid = false ∧
     (validate_document passportDoc allZero).risk_score = 100 ∧
     (validate_document passportDoc allZero).checks
       = [{ check_type := "Document Type", passed := false,
            details := "Unknown document type" }] ∧
     (validate_document passportDoc allZero).anomalies.length = 1 ∧
     (validate_document passportDoc allZero).recommendations.length = 1) :=
  ⟨by decide, unknown_type_fixed_result passportDoc allZero (by decide)⟩

/-- C4: for every known document type and every sequence of random draws,
the returned `risk_score` is the clamp to `[0, 100]` of the type-specific
base value, plus the type-specific increment for each failing check, plus
the `randint(-10, 10)` adjustment drawn from the stream, which always
lies in `[-10, 10]`. -/
theorem risk_score_formula (doc : Document) (s : Nat → Nat)
    (h : KnownType doc.document_type) :
    (validate_document doc s).risk_score
      = max 0 (min 100 (baseRisk doc.document_type
          + failIncrement doc.document_type
              * (((validate_document doc s).checks.filter
                    (fun check => !check.passed)).length : Int)
          + randint_m10_10 (s (adjDrawIx doc.document_type)))) ∧
    -10 ≤ randint_m10_10 (s (adjDrawIx doc.document_type)) ∧
    randint_m10_10 (s (adjDrawIx doc.document_type)) ≤ 10 := by
  refine ⟨?_, (randint_m10_10_bounds _).1, (randint_m10_10_bounds _).2⟩
  rcases h with h | h | h | h | h
  · rw [dispatch_bank doc s h, h, bank_risk_def, bank_checks_def, foldl_risk]
    simp [baseRisk, failIncrement, adjDrawIx, DocumentType.BANK_STATEMENT,
      DocumentType.PAYSLIP, DocumentType.IRP, DocumentType.PPSN, DocumentType.TAX_RECORD]
  · rw [dispatch_payslip doc s h, h, payslip_risk_def, payslip_checks_def, foldl_risk]
    simp [baseRisk, failIncrement, adjDrawIx, DocumentType.BANK_STATEMENT,
      DocumentType.PAYSLIP, DocumentType.IRP, DocumentType.PPSN, DocumentType.TAX_RECORD]
  · rw [dispatch_irp doc s h, h, irp_risk_def, irp_checks_def, foldl_risk]
    simp [baseRisk, failIncrement, adjDrawIx, DocumentType.BANK_STATEMENT,
      DocumentType.PAYSLIP, DocumentType.IRP, DocumentType.PPSN, DocumentType.TAX_RECORD]
  · rw [dispatch_ppsn doc s h, h, ppsn_risk_def, ppsn_checks_def, foldl_risk]
    simp [baseRisk, failIncrement, adjDrawIx, DocumentType.BANK_STATEMENT,
      DocumentType.PAYSLIP, DocumentType.IRP, DocumentType.PPSN, DocumentType.TAX_RECORD]
  · rw [dispatch_tax doc s h, h, tax_risk_def, tax_checks_def, foldl_risk]
    simp [baseRisk, failIncrement, adjDrawIx, DocumentType.BANK_STATEMENT,
      DocumentType.PAYSLIP, DocumentType.IRP, DocumentType.PPSN, DocumentType.TAX_RECORD]

/-- Witness for C4 at a concrete bank statement and the all-zero stream. -/
theorem risk_score_formula_witness :
    KnownType bankDoc.document_type ∧
    ((validate_document bankDoc allZero).risk_score
      = max 0 (min 100 (baseRisk bankDoc.document_type
          + failIncrement bankDoc.document_type
              * (((validate_document bankDoc allZero).checks.filter
                    (fun check => !check.passed)).length : Int)
          + randint_m10_10 (allZero (adjDrawIx bankDoc.document_type)))) ∧
     -10 ≤ randint_m10_10 (allZero (adjDrawIx bankDoc.document_type)) ∧
     randint_m10_10 (allZero (adjDrawIx bankDoc.document_type)) ≤ 10) ∧
    (validate_document bankDoc allZero).risk_score = 0 :=
  ⟨by decide, risk_score_formula bankDoc allZero (by decide), by decide⟩

/-- C6: validating the same document twice over the same sequence of
random draws (streams that agree on every draw the engine can consume)
produces identical `ValidationResult`s. -/
theorem validate_deterministic (doc : Document) (s₁ s₂ : Nat → Nat)
    (h : ∀ i, i < 7 → s₁ i = s₂ i) :
    validate_document doc s₁ = validate_document doc s₂ := by
  have h0 := h 0 (by omega)
  have h1 := h 1 (by omega)
  have h2 := h 2 (by omega)
  have h3 := h 3 (by omega)
  have h4 := h 4 (by omega)
  have h5 := h 5 (by omega)
  have h6 := h 6 (by omega)
  unfold validate_document _validate_bank_statement _validate_payslip _validate_irp
    _validate_ppsn _validate_tax_record bankChecks payslipChecks irpChecks ppsnChecks
    taxChecks
  rw [h0, h1, h2, h3, h4, h5, h6]

/-- Witness for C6 at a concrete document and two streams that agree on
the first seven draws but differ beyond them. -/
theorem validate_deterministic_witness :
    (∀ i, i < 7 → idBelow7 i = idBelow7b i) ∧
    validate_document bankDoc idBelow7 = validate_document bankDoc idBelow7b :=
  ⟨by decide, validate_deterministic bankDoc idBelow7 idBelow7b (by decide)⟩

/-- C9: every result returned by `validate_document` carries the same
`validation_date`: the constant produced by the single evaluation of
`datetime.now()` at `ValidationResult` class-definition time; no code
path in the validator sets the field. -/
theorem validation_date_is_class_constant (doc : Document) (s : Nat → Nat) :
    (validate_document doc s).validation_date = classDefTime := by
  unfold validate_document
  repeat first
    | rfl
    | split

/-- C7: for a bank statement in which all five checks pass, the returned
`risk_score` lies in `[0, 20]` (base 10 ± the adjustment) for every
sequence of random draws. -/
theorem bank_all_pass_risk_bounds (doc : Document) (s : Nat → Nat)
    (hdt : doc.document_type = DocumentType.BANK_STATEMENT)
    (hv : (validate_document doc s).is_valid = true) :
    0 ≤ (validate_document doc s).risk_score ∧
      (validate_document doc s).risk_score ≤ 20 := by
  rw [dispatch_bank doc s hdt] at hv ⊢
  rw [bank_is_valid_def] at hv
  rw [bank_risk_def]
  simp only [bankChecks, List.all_cons, List.all_nil, Bool.and_eq_true] at hv
  obtain ⟨h1, h2⟩ : choice2 (s 0) = true ∧ choice2 (s 2) = true := by
    simpa using hv
  simp only [bankChecks, List.foldl_cons, List.foldl_nil, h1, h2, reduceIte]
  have hr := randint_m10_10_bounds (s 4)
  constructor
  · omega
  · omega

/-- Witness for C7 at a concrete bank statement and the all-zero stream
(on which every check passes). -/
theorem bank_all_pass_risk_bounds_witness :
    bankDoc.document_type = DocumentType.BANK_STATEMENT ∧
    (validate_document bankDoc allZero).is_valid = true ∧
    (0 ≤ (validate_document bankDoc allZero).risk_score ∧
      (validate_document bankDoc allZero).risk_score ≤ 20) :=
  ⟨rfl, by decide, bank_all_pass_risk_bounds bankDoc allZero rfl (by decide)⟩

lemma choice2PassProb_eq : choice2PassProb = 1/2 := by
  have hl : ((List.range 2).filter (fun n => choice2 n)).length = 1 := by decide
  unfold choice2PassProb
  rw [hl]
  norm_num

lemma choice3PassProb_eq : choice3PassProb = 2/3 := by
  have hl : ((List.range 3).filter (fun n => choice3 n)).length = 2 := by decide
  unfold choice3PassProb
  rw [hl]
  norm_num

/-- C5 counterexample: the "Balance Calculation" check of a bank
statement is probabilistically evaluated (both outcomes occur), but its
probability of passing is `1/2`, not roughly between 70% and 90%. -/
theorem pass_prob_below_seventy_percent :
    ((validate_document bankDoc allOne).checks.getD 3 fallbackCheck).passed = false ∧
    ((validate_document bankDoc allZero).checks.getD 3 fallbackCheck).passed = true ∧
    choice2PassProb = 1/2 ∧ ¬((7:ℚ)/10 ≤ choice2PassProb) := by
  refine ⟨by decide, by decide, choice2PassProb_eq, ?_⟩
  rw [choice2PassProb_eq]
  norm_num

/-- C5 as amended: for every known document type, the `passed` flags of
the returned checks follow the per-type profile: format/template checks
are deterministically `true`, the remaining checks are `random.choice`
draws whose probability of passing is `1/2` for the two bank-statement
checks and `2/3` for the probabilistic checks of the other four types. -/
theorem checks_pass_profile (doc : Document) (s : Nat → Nat)
    (h : KnownType doc.document_type) :
    (validate_document doc s).checks.map (fun check => check.passed)
        = passProfile doc.document_type s ∧
    choice2PassProb = 1/2 ∧ choice3PassProb = 2/3 := by
  refine ⟨?_, choice2PassProb_eq, choice3PassProb_eq⟩
  rcases h with h | h | h | h | h
  · rw [dispatch_bank doc s h, bank_checks_def, h]
    simp [bankChecks, passProfile, DocumentType.BANK_STATEMENT, DocumentType.PAYSLIP,
      DocumentType.IRP, DocumentType.PPSN, DocumentType.TAX_RECORD]
  · rw [dispatch_payslip doc s h, payslip_checks_def, h]
    simp [payslipChecks, passProfile, DocumentType.BANK_STATEMENT, DocumentType.PAYSLIP,
      DocumentType.IRP, DocumentType.PPSN, DocumentType.TAX_RECORD]
  · rw [dispatch_irp doc s h, irp_checks_def, h]
    simp [irpChecks, passProfile, DocumentType.BANK_STATEMENT, DocumentType.PAYSLIP,
      DocumentType.IRP, DocumentType.PPSN, DocumentType.TAX_RECORD]
  · rw [dispatch_ppsn doc s h, ppsn_checks_def, h]
    simp [ppsnChecks, passProfile, DocumentType.BANK_STATEMENT, DocumentType.PAYSLIP,
      DocumentType.IRP, DocumentType.PPSN, DocumentType.TAX_RECORD]
  · rw [dispatch_tax doc s h, tax_checks_def, h]
    simp [taxChecks, passProfile, DocumentType.BANK_STATEMENT, DocumentType.PAYSLIP,
      DocumentType.IRP, DocumentType.PPSN, DocumentType.TAX_RECORD]

/-- Witness for the amended C5 at a concrete bank statement and stream. -/
theorem checks_pass_profile_witness :
    KnownType bankDoc.document_type ∧
    ((validate_document bankDoc allZero).checks.map (fun check => check.passed)
        = passProfile bankDoc.document_type allZero ∧
     choice2PassProb = 1/2 ∧ choice3PassProb = 2/3) :=
  ⟨by decide, checks_pass_profile bankDoc allZero (by decide)⟩

/-- C8: for every known document type and every sequence of random draws,
the anomaly list is at most as long as the number of failing checks whose
`check_type` has an anomaly message mapped, the recommendation list has
exactly one entry when the result is valid and at least one entry when it
is invalid. -/
theorem anomaly_and_recommendation_counts (doc : Document) (s : Nat → Nat)
    (h : KnownType doc.document_type) :
    (validate_document doc s).anomalies.length
      ≤ ((validate_document doc s).checks.filter
          (fun check => !check.passed
            && anomalyMapped doc.document_type check.check_type)).length ∧
    ((validate_document doc s).is_valid = true →
      (validate_document doc s).recommendations.length = 1) ∧
    ((validate_document doc s).is_valid = false →
      1 ≤ (validate_document doc s).recommendations.length) := by
  rcases h with h | h | h | h | h
  · rw [dispatch_bank doc s h, h, bank_anomalies_def, bank_checks_def, bank_is_valid_def,
      bank_recs_def]
    rcases Bool.eq_false_or_eq_true (choice2 (s 0)) with hb1 | hb1 <;>
      rcases Bool.eq_false_or_eq_true (choice2 (s 2)) with hb2 | hb2 <;>
        simp [bankChecks, hb1, hb2, bankAnomaly, anomalyMapped,
          DocumentType.BANK_STATEMENT, DocumentType.PAYSLIP, DocumentType.IRP,
          DocumentType.PPSN, DocumentType.TAX_RECORD]
  · rw [dispatch_payslip doc s h, h, payslip_anomalies_def, payslip_checks_def,
      payslip_is_valid_def, payslip_recs_def]
    rcases Bool.eq_false_or_eq_true (choice3 (s 0)) with hb1 | hb1 <;>
      rcases Bool.eq_false_or_eq_true (choice3 (s 2)) with hb2 | hb2 <;>
        rcases Bool.eq_false_or_eq_true (choice3 (s 4)) with hb3 | hb3 <;>
          simp [payslipChecks, hb1, hb2, hb3, payslipAnomaly, anomalyMapped,
            DocumentType.BANK_STATEMENT, DocumentType.PAYSLIP, DocumentType.IRP,
            DocumentType.PPSN, DocumentType.TAX_RECORD]
  · rw [dispatch_irp doc s h, h, irp_anomalies_def, irp_checks_def, irp_is_valid_def,
      irp_recs_def]
    rcases Bool.eq_false_or_eq_true (choice3 (s 0)) with hb1 | hb1 <;>
      rcases Bool.eq_false_or_eq_true (choice3 (s 2)) with hb2 | hb2 <;>
        simp [irpChecks, hb1, hb2, irpAnomaly, anomalyMapped,
          DocumentType.BANK_STATEMENT, DocumentType.PAYSLIP, DocumentType.IRP,
          DocumentType.PPSN, DocumentType.TAX_RECORD]
  · rw [dispatch_ppsn doc s h, h, ppsn_anomalies_def, ppsn_checks_def, ppsn_is_valid_def,
      ppsn_recs_def]
    rcases Bool.eq_false_or_eq_true (choice3 (s 0)) with hb1 | hb1 <;>
      rcases Bool.eq_false_or_eq_true (choice3 (s 2)) with hb2 | hb2 <;>
        simp [ppsnChecks, hb1, hb2, ppsnAnomaly, anomalyMapped,
          DocumentType.BANK_STATEMENT, DocumentType.PAYSLIP, DocumentType.IRP,
          DocumentType.PPSN, DocumentType.TAX_RECORD]
  · rw [dispatch_tax doc s h, h, tax_anomalies_def, tax_checks_def, tax_is_valid_def,
      tax_recs_def]
    rcases Bool.eq_false_or_eq_true (choice3 (s 0)) with hb1 | hb1 <;>
      rcases Bool.eq_false_or_eq_true (choice3 (s 2)) with hb2 | hb2 <;>
        rcases Bool.eq_false_or_eq_true (choice3 (s 4)) with hb3 | hb3 <;>
          simp [taxChecks, hb1, hb2, hb3, taxAnomaly, anomalyMapped,
            DocumentType.BANK_STATEMENT, DocumentType.PAYSLIP, DocumentType.IRP,
            DocumentType.PPSN, DocumentType.TAX_RECORD]

/-- Witness for C8 at a concrete bank statement and the all-one stream
(on which both probabilistic checks fail). -/
theorem anomaly_and_recommendation_counts_witness :
    KnownType bankDoc.document_type ∧
    ((validate_document bankDoc allOne).anomalies.length
      ≤ ((validate_document bankDoc allOne).checks.filter
          (fun check => !check.passed
            && anomalyMapped bankDoc.document_type check.check_type)).length ∧
    ((validate_document bankDoc allOne).is_valid = true →
      (validate_document bankDoc allOne).recommendations.length = 1) ∧
    ((validate_document bankDoc allOne).is_valid = false →
      1 ≤ (validate_document bankDoc allOne).recommendations.length)) :=
  ⟨by decide, anomaly_and_recommendation_counts bankDoc allOne (by decide)⟩

/-- C10: the `passed` flag and the `details` text of a probabilistic
check come from independent draws: on one stream the bank statement's
"Balance Calculation" check fails while its `details` is the success
text, and on another it passes while its `details` is the failure text. -/
theorem passed_and_details_draw_independence :
    { check_type := "Balance Calculation", passed := false,
      details := "Opening balance + transactions = closing balance" : ValidationCheck }
        ∈ (validate_document bankDoc failThenHigh).checks ∧
    { check_type := "Balance Calculation", passed := true,
      details := "Discrepancy detected in balance calculation" : ValidationCheck }
        ∈ (validate_document bankDoc allZero).checks := by
  have d1 : (3:ℚ)/10 < ratOf 999 := by norm_num [ratOf]
  have d2 : ¬((3:ℚ)/10 < ratOf 0) := by norm_num [ratOf]
  have hc1 : choice2 1 = false := by decide
  have hc0 : choice2 0 = true := by decide
  constructor
  · rw [dispatch_bank bankDoc failThenHigh rfl, bank_checks_def]
    simp [bankChecks, failThenHigh, hc1, d1]
  · rw [dispatch_bank bankDoc allZero rfl, bank_checks_def]
    simp [bankChecks, allZero, hc0, d2]
